import Mathlib

/-! Two-digit seven-segment BCD counter (C8051F005)

A shallow embedding of `seven-seg-decoder-99.c`.  The special function registers the
program touches are fields of `State`; every C function becomes a state transformer.
8-bit registers are natural numbers reduced `% 256` on every write, the 16-bit timer
registers are reduced `% 65536`, and the `int` loop counter is an `Int` wrapped to the
signed 16-bit range.  The timer hardware, which sets the overflow flag `TF2`
asynchronously, is an oracle `hw : Nat → Bool` indexed by the hardware time `clk`.
-/

namespace SevenSeg

/-! ## Registers -/

/-- Accesses to the timer run bit and the overflow flag, recorded in program order. -/
inductive Event where
  | writeTR2 (v : Bool)
  | clearTF2
  | pollTF2 (seen : Bool)
  deriving DecidableEq, Repr

/-- The special function registers used by the program.  `ET2`, `TR2` and `TF2` are the
bit-addressable flags of that name.  `clk` is the hardware time (one step per poll of
`TF2`) and `trace` the record of the accesses to `TR2` and `TF2`; neither is a register. -/
structure State where
  WDTCN : Nat
  OSCXCN : Nat
  OSCICN : Nat
  XBR2 : Nat
  PRT0CF : Nat
  P0 : Nat
  CKCON : Nat
  RCAP2 : Nat
  T2 : Nat
  ET2 : Bool
  TR2 : Bool
  TF2 : Bool
  clk : Nat
  trace : List Event
  deriving DecidableEq, Repr

/-! ## Global constants -/

def OFF : Nat := 0
def ON : Nat := 1
def DEC1 : Nat := 1
def DEC2 : Nat := 2

def SYSCLK : Int := 16000000
def DELAY : Nat := 1000
def RELOAD_VAL : Int := -((SYSCLK.tdiv 12).tdiv 1000)

/-! ## Bit-addressable port lines -/

/-- Set bit `k` of an 8-bit register. -/
def setBit8 (p k : Nat) : Nat := (p ||| (1 <<< k)) % 256

/-- Clear bit `k` of an 8-bit register. -/
def clrBit8 (p k : Nat) : Nat := (p &&& (255 ^^^ (1 <<< k))) % 256

/-- The assignment `sbit = v` on bit `k` of an 8-bit register. -/
def writeBit (p k : Nat) (v : Bool) : Nat := if v then setBit8 p k else clrBit8 p k

/-- Line `dec1A` is `P0^0`. -/
def dec1A (s : State) : Bool := s.P0.testBit 0
/-- Line `dec1B` is `P0^1`. -/
def dec1B (s : State) : Bool := s.P0.testBit 1
/-- Line `dec1C` is `P0^2`. -/
def dec1C (s : State) : Bool := s.P0.testBit 2
/-- Line `dec1D` is `P0^3`. -/
def dec1D (s : State) : Bool := s.P0.testBit 3
/-- Line `dec2A` is `P0^4`. -/
def dec2A (s : State) : Bool := s.P0.testBit 4
/-- Line `dec2B` is `P0^5`. -/
def dec2B (s : State) : Bool := s.P0.testBit 5
/-- Line `dec2C` is `P0^6`. -/
def dec2C (s : State) : Bool := s.P0.testBit 6
/-- Line `dec2D` is `P0^7`. -/
def dec2D (s : State) : Bool := s.P0.testBit 7

def set_dec1A (v : Bool) (s : State) : State := { s with P0 := writeBit s.P0 0 v }
def set_dec1B (v : Bool) (s : State) : State := { s with P0 := writeBit s.P0 1 v }
def set_dec1C (v : Bool) (s : State) : State := { s with P0 := writeBit s.P0 2 v }
def set_dec1D (v : Bool) (s : State) : State := { s with P0 := writeBit s.P0 3 v }
def set_dec2A (v : Bool) (s : State) : State := { s with P0 := writeBit s.P0 4 v }
def set_dec2B (v : Bool) (s : State) : State := { s with P0 := writeBit s.P0 5 v }
def set_dec2C (v : Bool) (s : State) : State := { s with P0 := writeBit s.P0 6 v }
def set_dec2D (v : Bool) (s : State) : State := { s with P0 := writeBit s.P0 7 v }

/-- The statement `dec1A=a; dec1B=b; dec1C=c; dec1D=d;`. -/
def writeDec1 (a b c d : Bool) (s : State) : State :=
  set_dec1D d (set_dec1C c (set_dec1B b (set_dec1A a s)))

/-- The statement `dec2A=a; dec2B=b; dec2C=c; dec2D=d;`. -/
def writeDec2 (a b c d : Bool) (s : State) : State :=
  set_dec2D d (set_dec2C c (set_dec2B b (set_dec2A a s)))

/-- The four lines of bus 1 in the order A, B, C, D. -/
def bus1 (s : State) : Bool × Bool × Bool × Bool := (dec1A s, dec1B s, dec1C s, dec1D s)

/-- The four lines of bus 2 in the order A, B, C, D. -/
def bus2 (s : State) : Bool × Bool × Bool × Bool := (dec2A s, dec2B s, dec2C s, dec2D s)

/-! ## Initialisation functions -/

/-- The C operator `!` on an integer value. -/
def lnot (x : Nat) : Nat := if x = 0 then 1 else 0

/-- Source `vWatchDog`: with `status == ON` nothing is written, otherwise the two-byte
disable sequence `0xDE`, `0xAD` is written to `WDTCN`. -/
def vWatchDog (status : Nat) (s : State) : State :=
  if status = ON then s
  else
    let s1 := { s with WDTCN := 0xDE }
    { s1 with WDTCN := 0xAD }

/-- Source `vOSC_Init`: `OSCXCN&=0x00; OSCICN|=0x83;`. -/
def vOSC_Init (s : State) : State :=
  let s1 := { s with OSCXCN := (s.OSCXCN &&& 0x00) % 256 }
  { s1 with OSCICN := (s1.OSCICN ||| 0x83) % 256 }

/-- Source `vPort_Init`: `XBR2=0x40; PRT0CF=0xFF; P0=0x00;`. -/
def vPort_Init (s : State) : State :=
  let s1 := { s with XBR2 := 0x40 }
  let s2 := { s1 with PRT0CF := 0xFF }
  { s2 with P0 := 0x00 }

/-- Source `vTimer2_Init`: `ET2=0; CKCON&=!0x20; RCAP2=RELOAD_VAL; T2=RCAP2;`. -/
def vTimer2_Init (s : State) : State :=
  let s1 := { s with ET2 := false }
  let s2 := { s1 with CKCON := (s1.CKCON &&& lnot 0x20) % 256 }
  let s3 := { s2 with RCAP2 := (RELOAD_VAL % 65536).toNat }
  { s3 with T2 := s3.RCAP2 }

/-! ## The decoder -/

/-- Source `vDisplayNumber`: a `switch` over `number` with cases 0 to 9 and a `default`;
each case writes the four lines of decoder 1, of decoder 2, or nothing. -/
def vDisplayNumber (number : Int) (decoder : Nat) (s : State) : State :=
  if number = 0 then
    if decoder = DEC1 then writeDec1 false false false false s
    else if decoder = DEC2 then writeDec2 false false false false s
    else s
  else if number = 1 then
    if decoder = DEC1 then writeDec1 true false false false s
    else if decoder = DEC2 then writeDec2 true false false false s
    else s
  else if number = 2 then
    if decoder = DEC1 then writeDec1 false true false false s
    else if decoder = DEC2 then writeDec2 false true false false s
    else s
  else if number = 3 then
    if decoder = DEC1 then writeDec1 true true false false s
    else if decoder = DEC2 then writeDec2 true true false false s
    else s
  else if number = 4 then
    if decoder = DEC1 then writeDec1 false false true false s
    else if decoder = DEC2 then writeDec2 false false true false s
    else s
  else if number = 5 then
    if decoder = DEC1 then writeDec1 true false true false s
    else if decoder = DEC2 then writeDec2 true false true false s
    else s
  else if number = 6 then
    if decoder = DEC1 then writeDec1 false true true false s
    else if decoder = DEC2 then writeDec2 false true true false s
    else s
  else if number = 7 then
    if decoder = DEC1 then writeDec1 true true true false s
    else if decoder = DEC2 then writeDec2 true true true false s
    else s
  else if number = 8 then
    if decoder = DEC1 then writeDec1 false false false true s
    else if decoder = DEC2 then writeDec2 false false false true s
    else s
  else if number = 9 then
    if decoder = DEC1 then writeDec1 true false false true s
    else if decoder = DEC2 then writeDec2 true false false true s
    else s
  else
    if decoder = DEC1 then writeDec1 false false false true s
    else if decoder = DEC2 then writeDec2 false false false true s
    else s

/-! ## The delay -/

/-- The assignment `TR2 = v`. -/
def set_TR2 (v : Bool) (s : State) : State :=
  { s with TR2 := v, trace := s.trace ++ [Event.writeTR2 v] }

/-- The assignment `TF2 = 0`. -/
def clear_TF2 (s : State) : State :=
  { s with TF2 := false, trace := s.trace ++ [Event.clearTF2] }

/-- One evaluation of `TF2` by the program.  The hardware first advances one step: when
the timer runs and overflows in this step (`hw clk`) the flag is set; a flag that is set
stays set until the program clears it. -/
def poll_TF2 (hw : Nat → Bool) (s : State) : State :=
  let tf := s.TF2 || (s.TR2 && hw s.clk)
  { s with TF2 := tf, clk := s.clk + 1, trace := s.trace ++ [Event.pollTF2 tf] }

/-- The inner loop `while(!TF2);`, with at most `fuel` polls. -/
def waitTF2 (hw : Nat → Bool) : Nat → State → Option State
  | 0, _ => none
  | fuel + 1, s =>
    let s1 := poll_TF2 hw s
    if s1.TF2 then some s1 else waitTF2 hw fuel s1

/-- The outer loop `while(ms){ TF2=0; while(!TF2); ms--; }`. -/
def delayLoop (hw : Nat → Bool) (fuel : Nat) : Nat → State → Option State
  | 0, s => some s
  | ms + 1, s => (waitTF2 hw fuel (clear_TF2 s)).bind (delayLoop hw fuel ms)

/-- Source `vDelay_ms`: start timer 2, wait for `ms` overflows, stop timer 2.  `fuel`
bounds the polls of each single wait; `none` means that a wait ran out of fuel. -/
def vDelay_ms (hw : Nat → Bool) (fuel : Nat) (ms : Nat) (s : State) : Option State :=
  (delayLoop hw fuel ms (set_TR2 true s)).map (set_TR2 false)

/-! ## main -/

/-- Wrap to the range of the 16-bit `int`. -/
def wrap16 (x : Int) : Int := (x + 32768) % 65536 - 32768

/-- The state of `main`: the local `count` and the registers. -/
structure MainState where
  count : Int
  regs : State
  deriving DecidableEq, Repr

/-- Source `main` up to the loop: `count=0` and the four initialisation calls. -/
def mainInit (s : State) : MainState :=
  { count := 0, regs := vTimer2_Init (vPort_Init (vOSC_Init (vWatchDog OFF s))) }

/-- The two display calls at the head of the loop body. -/
def displayCount (count : Int) (s : State) : State :=
  vDisplayNumber (count.tdiv 10) DEC2 (vDisplayNumber (count.tmod 10) DEC1 s)

/-- The statements `count++; if(count==100) count=0;`. -/
def nextCount (count : Int) : Int :=
  let c := wrap16 (count + 1)
  if c = 100 then 0 else c

/-- One iteration of the body of `while(1)` in `main`. -/
def loopBody (hw : Nat → Bool) (fuel : Nat) (m : MainState) : Option MainState :=
  (vDelay_ms hw fuel DELAY (displayCount m.count m.regs)).map
    fun r => { count := nextCount m.count, regs := r }

/-- The state after `k` complete iterations of the loop body. -/
def runLoop (hw : Nat → Bool) (fuel : Nat) : Nat → MainState → Option MainState
  | 0, m => some m
  | k + 1, m => (runLoop hw fuel k m).bind (loopBody hw fuel)

/-! ## The table of the specification -/

/-- The pattern table of the specification, lines in the order A, B, C, D:
`0:0000 1:1000 2:0100 3:1100 4:0010 5:1010 6:0110 7:1110 8:0001 9:1001`,
and `0001` for any other value. -/
def tablePattern (d : Int) : Bool × Bool × Bool × Bool :=
  if d = 0 then (false, false, false, false)
  else if d = 1 then (true, false, false, false)
  else if d = 2 then (false, true, false, false)
  else if d = 3 then (true, true, false, false)
  else if d = 4 then (false, false, true, false)
  else if d = 5 then (true, false, true, false)
  else if d = 6 then (false, true, true, false)
  else if d = 7 then (true, true, true, false)
  else if d = 8 then (false, false, false, true)
  else if d = 9 then (true, false, false, true)
  else (false, false, false, true)

/-! ## Sample states -/

/-- A state with every register zero. -/
def zeroState : State :=
  { WDTCN := 0, OSCXCN := 0, OSCICN := 0, XBR2 := 0, PRT0CF := 0, P0 := 0, CKCON := 0,
    RCAP2 := 0, T2 := 0, ET2 := false, TR2 := false, TF2 := false, clk := 0, trace := [] }

/-- A state with every register bit set. -/
def onesState : State :=
  { WDTCN := 0xFF, OSCXCN := 0xFF, OSCICN := 0xFF, XBR2 := 0xFF, PRT0CF := 0xFF, P0 := 0xFF,
    CKCON := 0xFF, RCAP2 := 0xFFFF, T2 := 0xFFFF, ET2 := true, TR2 := true, TF2 := true,
    clk := 0, trace := [] }

/-- The lines of the bus named by a decoder identifier (`DEC1` or `DEC2`). -/
def busOf (decoder : Nat) (s : State) : Bool × Bool × Bool × Bool :=
  if decoder = DEC1 then bus1 s else bus2 s

/-! ## Outcomes of the delay -/

/-- The state after a wait that saw `TF2` clear `k` times and then set. -/
def waitResult (s : State) (k : Nat) : State :=
  { s with TF2 := true, clk := s.clk + (k + 1),
           trace := s.trace ++
             (List.replicate k (Event.pollTF2 false) ++ [Event.pollTF2 true]) }

/-- The accesses of a run of clear-and-wait cycles; the cycle with entry `k` clears `TF2`,
polls it `k` times without seeing it set and once more seeing it set. -/
def cycleEvents : List Nat → List Event
  | [] => []
  | k :: ks =>
    Event.clearTF2 ::
      (List.replicate k (Event.pollTF2 false) ++ Event.pollTF2 true :: cycleEvents ks)

/-- The state after the clear-and-wait cycles `ks` of the outer loop. -/
def afterCycles (s : State) (ks : List Nat) : State :=
  { s with TF2 := if ks = [] then s.TF2 else true,
           clk := s.clk + (ks.map (· + 1)).sum,
           trace := s.trace ++ cycleEvents ks }

/-- The state after a complete delay made of the clear-and-wait cycles `ks`. -/
def delayResult (s : State) (ks : List Nat) : State :=
  { s with TR2 := false,
           TF2 := if ks = [] then s.TF2 else true,
           clk := s.clk + (ks.map (· + 1)).sum,
           trace := s.trace ++
             ([Event.writeTR2 true] ++ cycleEvents ks ++ [Event.writeTR2 false]) }

/-- The part of the state of `main` a user can see: the counter, the eight output lines
and the timer run bit. -/
def observable (m : MainState) :
    Int × (Bool × Bool × Bool × Bool) × (Bool × Bool × Bool × Bool) × Bool :=
  (m.count, bus1 m.regs, bus2 m.regs, m.regs.TR2)

/-! ## Sample hardware -/

/-- A timer that overflows in every hardware step. -/
def hwAlways : Nat → Bool := fun _ => true

/-- A timer that overflows in every third hardware step. -/
def hwEvery3 : Nat → Bool := fun t => decide (t % 3 = 2)

/-! ## Values and paths of the decoder -/

/-- The number a four-line pattern encodes when line A is the least significant bit. -/
def nibbleVal (p : Bool × Bool × Bool × Bool) : Nat :=
  p.1.toNat + 2 * p.2.1.toNat + 4 * p.2.2.1.toNat + 8 * p.2.2.2.toNat

/-- The arguments of the two calls of `vDisplayNumber` in the loop body of `main`, in
program order: `(count%10, DEC1)` and `(count/10, DEC2)`. -/
def displayArgs (count : Int) : List (Int × Nat) :=
  [(count.tmod 10, DEC1), (count.tdiv 10, DEC2)]

/-- Whether the `switch` of `vDisplayNumber` reaches its `default` label: `number` is
none of the case labels 0 to 9. -/
def takesDefault (number : Int) : Bool :=
  if number = 0 then false
  else if number = 1 then false
  else if number = 2 then false
  else if number = 3 then false
  else if number = 4 then false
  else if number = 5 then false
  else if number = 6 then false
  else if number = 7 then false
  else if number = 8 then false
  else if number = 9 then false
  else true

/-- Whether the `if` chain inside a case of `vDisplayNumber` reaches its empty `else`:
`decoder` is neither `DEC1` nor `DEC2`. -/
def takesEmptyElse (decoder : Nat) : Bool :=
  if decoder = DEC1 then false
  else if decoder = DEC2 then false
  else true

/-! ## Bit lemmas -/

theorem testBit_255 (j : Nat) : Nat.testBit 255 j = decide (j < 8) := by
  have h : (255 : Nat) = 2 ^ 8 - 1 := by norm_num
  rw [h, Nat.testBit_two_pow_sub_one]

theorem testBit_mod_256 (x j : Nat) :
    (x % 256).testBit j = (decide (j < 8) && x.testBit j) := by
  have h : (256 : Nat) = 2 ^ 8 := by norm_num
  rw [h, Nat.testBit_mod_two_pow]

theorem testBit_setBit8 (p k j : Nat) (hj : j < 8) :
    (setBit8 p k).testBit j = if j = k then true else p.testBit j := by
  unfold setBit8
  rw [testBit_mod_256, Nat.testBit_or, Nat.one_shiftLeft, Nat.testBit_two_pow]
  by_cases h : j = k
  · subst h; simp [hj]
  · have h2 : ¬ k = j := fun e => h e.symm
    simp [h, h2, hj]

theorem testBit_clrBit8 (p k j : Nat) (hj : j < 8) :
    (clrBit8 p k).testBit j = if j = k then false else p.testBit j := by
  unfold clrBit8
  rw [testBit_mod_256, Nat.testBit_and, Nat.testBit_xor, testBit_255, Nat.one_shiftLeft,
    Nat.testBit_two_pow]
  by_cases h : j = k
  · subst h; simp [hj]
  · have h2 : ¬ k = j := fun e => h e.symm
    simp [h, h2, hj]

theorem testBit_writeBit (p k j : Nat) (v : Bool) (hj : j < 8) :
    (writeBit p k v).testBit j = if j = k then v else p.testBit j := by
  unfold writeBit
  cases v
  · simpa using testBit_clrBit8 p k j hj
  · simpa using testBit_setBit8 p k j hj

/-- After the four writes to decoder 1 its lines hold the values written. -/
theorem bus1_writeDec1 (a b c d : Bool) (s : State) :
    bus1 (writeDec1 a b c d s) = (a, b, c, d) := by
  simp [-Nat.testBit_zero, bus1, writeDec1, dec1A, dec1B, dec1C, dec1D, set_dec1A, set_dec1B, set_dec1C,
    set_dec1D, testBit_writeBit]

/-- After the four writes to decoder 2 its lines hold the values written. -/
theorem bus2_writeDec2 (a b c d : Bool) (s : State) :
    bus2 (writeDec2 a b c d s) = (a, b, c, d) := by
  simp [bus2, writeDec2, dec2A, dec2B, dec2C, dec2D, set_dec2A, set_dec2B, set_dec2C,
    set_dec2D, testBit_writeBit]

/-- The writes to decoder 1 leave the lines of decoder 2 as they were. -/
theorem bus2_writeDec1 (a b c d : Bool) (s : State) :
    bus2 (writeDec1 a b c d s) = bus2 s := by
  simp [bus2, writeDec1, dec2A, dec2B, dec2C, dec2D, set_dec1A, set_dec1B, set_dec1C,
    set_dec1D, testBit_writeBit]

/-- The writes to decoder 2 leave the lines of decoder 1 as they were. -/
theorem bus1_writeDec2 (a b c d : Bool) (s : State) :
    bus1 (writeDec2 a b c d s) = bus1 s := by
  simp [-Nat.testBit_zero, bus1, writeDec2, dec1A, dec1B, dec1C, dec1D, set_dec2A, set_dec2B, set_dec2C,
    set_dec2D, testBit_writeBit]

/-! ## The decoder: patterns -/

/-- For a digit the lines of decoder 1 hold the table entry after the call. -/
theorem bus1_display_digit (d : Int) (h0 : 0 ≤ d) (h9 : d ≤ 9) (s : State) :
    bus1 (vDisplayNumber d DEC1 s) = tablePattern d := by
  interval_cases d <;> simp [vDisplayNumber, tablePattern, DEC1, bus1_writeDec1]

/-- For a digit the lines of decoder 2 hold the table entry after the call. -/
theorem bus2_display_digit (d : Int) (h0 : 0 ≤ d) (h9 : d ≤ 9) (s : State) :
    bus2 (vDisplayNumber d DEC2 s) = tablePattern d := by
  interval_cases d <;> simp [vDisplayNumber, tablePattern, DEC1, DEC2, bus2_writeDec2]

/-- A value outside 0..9 takes the `default` branch on decoder 1. -/
theorem display_default_dec1 (d : Int) (h : d < 0 ∨ 9 < d) (s : State) :
    vDisplayNumber d DEC1 s = writeDec1 false false false true s := by
  have e0 : d ≠ 0 := by omega
  have e1 : d ≠ 1 := by omega
  have e2 : d ≠ 2 := by omega
  have e3 : d ≠ 3 := by omega
  have e4 : d ≠ 4 := by omega
  have e5 : d ≠ 5 := by omega
  have e6 : d ≠ 6 := by omega
  have e7 : d ≠ 7 := by omega
  have e8 : d ≠ 8 := by omega
  have e9 : d ≠ 9 := by omega
  simp [vDisplayNumber, e0, e1, e2, e3, e4, e5, e6, e7, e8, e9]

/-- A value outside 0..9 takes the `default` branch on decoder 2. -/
theorem display_default_dec2 (d : Int) (h : d < 0 ∨ 9 < d) (s : State) :
    vDisplayNumber d DEC2 s = writeDec2 false false false true s := by
  have e0 : d ≠ 0 := by omega
  have e1 : d ≠ 1 := by omega
  have e2 : d ≠ 2 := by omega
  have e3 : d ≠ 3 := by omega
  have e4 : d ≠ 4 := by omega
  have e5 : d ≠ 5 := by omega
  have e6 : d ≠ 6 := by omega
  have e7 : d ≠ 7 := by omega
  have e8 : d ≠ 8 := by omega
  have e9 : d ≠ 9 := by omega
  simp [vDisplayNumber, e0, e1, e2, e3, e4, e5, e6, e7, e8, e9, DEC1, DEC2]

/-- For any other value the table of the specification gives 0001. -/
theorem tablePattern_default (d : Int) (h : d < 0 ∨ 9 < d) :
    tablePattern d = (false, false, false, true) := by
  have e0 : d ≠ 0 := by omega
  have e1 : d ≠ 1 := by omega
  have e2 : d ≠ 2 := by omega
  have e3 : d ≠ 3 := by omega
  have e4 : d ≠ 4 := by omega
  have e5 : d ≠ 5 := by omega
  have e6 : d ≠ 6 := by omega
  have e7 : d ≠ 7 := by omega
  have e8 : d ≠ 8 := by omega
  have e9 : d ≠ 9 := by omega
  simp [tablePattern, e0, e1, e2, e3, e4, e5, e6, e7, e8, e9]

/-- A value is one of the ten digits or takes the `default` branch. -/
theorem digit_or_default (d : Int) : (0 ≤ d ∧ d ≤ 9) ∨ (d < 0 ∨ 9 < d) := by omega

/-- On decoder 1 every call is one four-line write to bus 1. -/
theorem display_dec1_eq_write (number : Int) (s : State) :
    ∃ a b c d, vDisplayNumber number DEC1 s = writeDec1 a b c d s := by
  rcases digit_or_default number with ⟨h0, h9⟩ | h
  · interval_cases number <;> exact ⟨_, _, _, _, by simp [vDisplayNumber]; rfl⟩
  · exact ⟨_, _, _, _, display_default_dec1 number h s⟩

/-- On decoder 2 every call is one four-line write to bus 2. -/
theorem display_dec2_eq_write (number : Int) (s : State) :
    ∃ a b c d, vDisplayNumber number DEC2 s = writeDec2 a b c d s := by
  rcases digit_or_default number with ⟨h0, h9⟩ | h
  · interval_cases number <;> exact ⟨_, _, _, _, by simp [vDisplayNumber, DEC1, DEC2]; rfl⟩
  · exact ⟨_, _, _, _, display_default_dec2 number h s⟩

/-- The table of the specification has ten different entries for the ten digits. -/
theorem tablePattern_injOn (d1 d2 : Int) (h1 : 0 ≤ d1 ∧ d1 ≤ 9) (h2 : 0 ≤ d2 ∧ d2 ≤ 9)
    (h : tablePattern d1 = tablePattern d2) : d1 = d2 := by
  obtain ⟨a1, b1⟩ := h1
  obtain ⟨a2, b2⟩ := h2
  interval_cases d1 <;> interval_cases d2 <;> simp [tablePattern] at h ⊢

/-- C1: for every digit d in 0..9 and every prior state, after `vDisplayNumber d DEC1` the
lines (A,B,C,D) of bus 1 hold the table pattern of d, and after `vDisplayNumber d DEC2`
the lines (A,B,C,D) of bus 2 hold it. -/
theorem C1_display_digit (d : Int) (h0 : 0 ≤ d) (h9 : d ≤ 9) (s : State) :
    bus1 (vDisplayNumber d DEC1 s) = tablePattern d ∧
      bus2 (vDisplayNumber d DEC2 s) = tablePattern d :=
  ⟨bus1_display_digit d h0 h9 s, bus2_display_digit d h0 h9 s⟩

/-- Witness of C1: the digit 7 written over a port with all lines high. -/
theorem C1_display_digit_witness :
    bus1 (vDisplayNumber 7 DEC1 onesState) = tablePattern 7 ∧
      bus2 (vDisplayNumber 7 DEC2 onesState) = tablePattern 7 :=
  C1_display_digit 7 (by decide) (by decide) onesState

/-- C2: for every integer d outside 0..9 (negative values included) and every prior state,
after `vDisplayNumber d b` the lines (A,B,C,D) of bus b hold 0001, for b = DEC1 and
b = DEC2. -/
theorem C2_display_fallback (d : Int) (h : d < 0 ∨ 9 < d) (s : State) :
    bus1 (vDisplayNumber d DEC1 s) = (false, false, false, true) ∧
      bus2 (vDisplayNumber d DEC2 s) = (false, false, false, true) := by
  rw [display_default_dec1 d h, display_default_dec2 d h, bus1_writeDec1, bus2_writeDec2]
  exact ⟨rfl, rfl⟩

/-- Witness of C2: the most negative 16-bit value. -/
theorem C2_display_fallback_witness :
    bus1 (vDisplayNumber (-32768) DEC1 onesState) = (false, false, false, true) ∧
      bus2 (vDisplayNumber (-32768) DEC2 onesState) = (false, false, false, true) :=
  C2_display_fallback (-32768) (Or.inl (by decide)) onesState

/-- C3, as stated, fails: for the value 10 the lines (A,B,C,D) of bus 1 are not 1000
(line A is low and line D is high), and the same holds on bus 2. -/
theorem C3_counterexample :
    bus1 (vDisplayNumber 10 DEC1 zeroState) = (false, false, false, true) ∧
      bus1 (vDisplayNumber 10 DEC1 zeroState) ≠ (true, false, false, false) ∧
      bus2 (vDisplayNumber 10 DEC2 zeroState) ≠ (true, false, false, false) := by
  rw [display_default_dec1 10 (Or.inr (by decide)), display_default_dec2 10 (Or.inr (by decide)),
    bus1_writeDec1, bus2_writeDec2]
  decide

/-- C3, amended: for every value outside 0..9 the fallback pattern written to bus b reads
1000 in the order D, C, B, A (A=0, B=0, C=0, D=1), which is the pattern of the digit 8. -/
theorem C3_fallback_is_pattern_of_8 (d : Int) (h : d < 0 ∨ 9 < d) (s : State) :
    (dec1D (vDisplayNumber d DEC1 s), dec1C (vDisplayNumber d DEC1 s),
        dec1B (vDisplayNumber d DEC1 s), dec1A (vDisplayNumber d DEC1 s))
        = (true, false, false, false) ∧
      (dec2D (vDisplayNumber d DEC2 s), dec2C (vDisplayNumber d DEC2 s),
        dec2B (vDisplayNumber d DEC2 s), dec2A (vDisplayNumber d DEC2 s))
        = (true, false, false, false) ∧
      vDisplayNumber d DEC1 s = vDisplayNumber 8 DEC1 s ∧
      vDisplayNumber d DEC2 s = vDisplayNumber 8 DEC2 s := by
  have a := bus1_writeDec1 false false false true s
  have b := bus2_writeDec2 false false false true s
  simp only [bus1, bus2, Prod.mk.injEq] at a b
  rw [display_default_dec1 d h, display_default_dec2 d h]
  refine ⟨?_, ?_, ?_, ?_⟩
  · simp [a]
  · simp [b]
  · simp [vDisplayNumber]
  · simp [vDisplayNumber, DEC1, DEC2]

/-- Witness of the amended C3: the value 10 written over a port with all lines high. -/
theorem C3_fallback_is_pattern_of_8_witness :
    (dec1D (vDisplayNumber 10 DEC1 onesState), dec1C (vDisplayNumber 10 DEC1 onesState),
        dec1B (vDisplayNumber 10 DEC1 onesState), dec1A (vDisplayNumber 10 DEC1 onesState))
        = (true, false, false, false) ∧
      (dec2D (vDisplayNumber 10 DEC2 onesState), dec2C (vDisplayNumber 10 DEC2 onesState),
        dec2B (vDisplayNumber 10 DEC2 onesState), dec2A (vDisplayNumber 10 DEC2 onesState))
        = (true, false, false, false) ∧
      vDisplayNumber 10 DEC1 onesState = vDisplayNumber 8 DEC1 onesState ∧
      vDisplayNumber 10 DEC2 onesState = vDisplayNumber 8 DEC2 onesState :=
  C3_fallback_is_pattern_of_8 10 (Or.inr (by decide)) onesState

/-- C4: for every number and every prior state, `vDisplayNumber number DEC1` leaves the
four lines of bus 2 unchanged and `vDisplayNumber number DEC2` leaves the four lines of
bus 1 unchanged. -/
theorem C4_other_bus_unchanged (number : Int) (s : State) :
    bus2 (vDisplayNumber number DEC1 s) = bus2 s ∧
      bus1 (vDisplayNumber number DEC2 s) = bus1 s := by
  obtain ⟨a, b, c, d, h⟩ := display_dec1_eq_write number s
  obtain ⟨a2, b2, c2, d2, h2⟩ := display_dec2_eq_write number s
  rw [h, h2, bus2_writeDec1, bus1_writeDec2]
  exact ⟨rfl, rfl⟩

/-- C5: for every number and every decoder identifier other than `DEC1` and `DEC2`,
`vDisplayNumber number decoder` returns the state it was given, all of it. -/
theorem C5_unknown_decoder_no_write (number : Int) (decoder : Nat) (h1 : decoder ≠ DEC1)
    (h2 : decoder ≠ DEC2) (s : State) : vDisplayNumber number decoder s = s := by
  unfold vDisplayNumber
  simp [h1, h2]

/-- Witness of C5: the decoder identifiers 0 and 65535. -/
theorem C5_unknown_decoder_no_write_witness :
    vDisplayNumber 5 0 onesState = onesState ∧ vDisplayNumber 12 65535 onesState = onesState :=
  ⟨C5_unknown_decoder_no_write 5 0 (by decide) (by decide) onesState,
    C5_unknown_decoder_no_write 12 65535 (by decide) (by decide) onesState⟩

/-- C6: on each bus the patterns written for the ten digits are pairwise distinct: if
d1 and d2 are in 0..9 and the calls for d1 and for d2 on bus b (from any two prior
states) leave the same pattern on the lines of bus b, then d1 = d2. -/
theorem C6_digit_patterns_distinct (d1 d2 : Int) (b : Nat) (s1 s2 : State)
    (h1 : 0 ≤ d1 ∧ d1 ≤ 9) (h2 : 0 ≤ d2 ∧ d2 ≤ 9) (hb : b = DEC1 ∨ b = DEC2)
    (h : busOf b (vDisplayNumber d1 b s1) = busOf b (vDisplayNumber d2 b s2)) : d1 = d2 := by
  apply tablePattern_injOn d1 d2 h1 h2
  rcases hb with hb | hb
  · subst hb
    rw [busOf, busOf, if_pos rfl, if_pos rfl, bus1_display_digit d1 h1.1 h1.2,
      bus1_display_digit d2 h2.1 h2.2] at h
    exact h
  · subst hb
    rw [busOf, busOf, if_neg (by decide), if_neg (by decide),
      bus2_display_digit d1 h1.1 h1.2, bus2_display_digit d2 h2.1 h2.2] at h
    exact h

/-- Witness of C6: the digit 3 on bus 2, written from two different prior states. -/
theorem C6_digit_patterns_distinct_witness :
    busOf DEC2 (vDisplayNumber 3 DEC2 zeroState) = busOf DEC2 (vDisplayNumber 3 DEC2 onesState) ∧
      (3 : Int) = 3 :=
  have h : busOf DEC2 (vDisplayNumber 3 DEC2 zeroState)
      = busOf DEC2 (vDisplayNumber 3 DEC2 onesState) := by
    rw [busOf, busOf, if_neg (by decide), if_neg (by decide),
      bus2_display_digit 3 (by decide) (by decide),
      bus2_display_digit 3 (by decide) (by decide)]
  ⟨h, C6_digit_patterns_distinct 3 3 DEC2 zeroState onesState (by decide) (by decide)
    (Or.inr rfl) h⟩

/-! ## The delay: what a returned state looks like -/

theorem waitTF2_some (hw : Nat → Bool) (fuel : Nat) (s s' : State)
    (h : waitTF2 hw fuel s = some s') : ∃ k, k < fuel ∧ s' = waitResult s k := by
  induction fuel generalizing s with
  | zero => simp [waitTF2] at h
  | succ f ih =>
    simp only [waitTF2] at h
    split at h
    · rename_i htf
      refine ⟨0, Nat.succ_pos f, ?_⟩
      injection h with h
      subst h
      simp only [poll_TF2] at htf
      simp [waitResult, poll_TF2, htf]
    · rename_i htf
      obtain ⟨k, hk, e⟩ := ih _ h
      refine ⟨k + 1, Nat.succ_lt_succ hk, ?_⟩
      subst e
      simp only [poll_TF2] at htf
      simp [waitResult, poll_TF2, htf, List.replicate_succ, Nat.add_assoc, Nat.add_comm 1]

theorem delayLoop_some (hw : Nat → Bool) (fuel n : Nat) (s s' : State)
    (h : delayLoop hw fuel n s = some s') : ∃ ks, ks.length = n ∧ s' = afterCycles s ks := by
  induction n generalizing s with
  | zero =>
    refine ⟨[], rfl, ?_⟩
    simp only [delayLoop, Option.some.injEq] at h
    subst h
    simp [afterCycles, cycleEvents]
  | succ n ih =>
    simp only [delayLoop, Option.bind_eq_some] at h
    obtain ⟨s1, h1, h2⟩ := h
    obtain ⟨k, -, e1⟩ := waitTF2_some hw fuel _ _ h1
    obtain ⟨ks, hl, e2⟩ := ih _ h2
    refine ⟨k :: ks, by simp [hl], ?_⟩
    subst e1 e2
    simp [afterCycles, waitResult, clear_TF2, cycleEvents, Nat.add_assoc]

theorem vDelay_ms_some (hw : Nat → Bool) (fuel n : Nat) (s s' : State)
    (h : vDelay_ms hw fuel n s = some s') : ∃ ks, ks.length = n ∧ s' = delayResult s ks := by
  simp only [vDelay_ms, Option.map_eq_some'] at h
  obtain ⟨s1, h1, h2⟩ := h
  obtain ⟨ks, hl, e⟩ := delayLoop_some hw fuel n _ _ h1
  refine ⟨ks, hl, ?_⟩
  subst e h2
  simp [delayResult, afterCycles, set_TR2]

/-! ## The delay: more fuel gives the same result -/

theorem waitTF2_mono (hw : Nat → Bool) (f f' : Nat) (s s' : State) (hf : f ≤ f')
    (h : waitTF2 hw f s = some s') : waitTF2 hw f' s = some s' := by
  induction f generalizing s f' with
  | zero => simp [waitTF2] at h
  | succ f ih =>
    obtain ⟨g, rfl⟩ : ∃ g, f' = g + 1 := ⟨f' - 1, by omega⟩
    simp only [waitTF2] at h ⊢
    split
    · rename_i htf
      simpa [htf] using h
    · rename_i htf
      simp only [htf] at h
      exact ih g _ (by omega) (by simpa using h)

theorem delayLoop_mono (hw : Nat → Bool) (f f' n : Nat) (s s' : State) (hf : f ≤ f')
    (h : delayLoop hw f n s = some s') : delayLoop hw f' n s = some s' := by
  induction n generalizing s with
  | zero => simpa [delayLoop] using h
  | succ n ih =>
    simp only [delayLoop, Option.bind_eq_some] at h ⊢
    obtain ⟨s1, h1, h2⟩ := h
    exact ⟨s1, waitTF2_mono hw f f' _ _ hf h1, ih _ h2⟩

theorem vDelay_ms_mono (hw : Nat → Bool) (f f' n : Nat) (s s' : State) (hf : f ≤ f')
    (h : vDelay_ms hw f n s = some s') : vDelay_ms hw f' n s = some s' := by
  simp only [vDelay_ms, Option.map_eq_some'] at h ⊢
  obtain ⟨s1, h1, h2⟩ := h
  exact ⟨s1, delayLoop_mono hw f f' n _ _ hf h1, h2⟩

/-! ## The delay: termination -/

/-- With the timer running, a wait returns when the timer overflows within the fuel. -/
theorem waitTF2_fires (hw : Nat → Bool) (k : Nat) (fuel : Nat) (s : State)
    (hTR : s.TR2 = true) (hk : hw (s.clk + k) = true) (hf : k < fuel) :
    ∃ s', waitTF2 hw fuel s = some s' := by
  induction k generalizing s fuel with
  | zero =>
    obtain ⟨g, rfl⟩ : ∃ g, fuel = g + 1 := ⟨fuel - 1, by omega⟩
    have : (poll_TF2 hw s).TF2 = true := by
      simp only [Nat.add_zero] at hk
      simp [poll_TF2, hTR, hk]
    exact ⟨poll_TF2 hw s, by simp [waitTF2, this]⟩
  | succ k ih =>
    obtain ⟨g, rfl⟩ : ∃ g, fuel = g + 1 := ⟨fuel - 1, by omega⟩
    simp only [waitTF2]
    split
    · exact ⟨_, rfl⟩
    · apply ih
      · simpa [poll_TF2] using hTR
      · have : (poll_TF2 hw s).clk + k = s.clk + (k + 1) := by simp [poll_TF2]; omega
        rw [this]; exact hk
      · omega

/-- The outer loop returns when the timer overflows within every window of `fuel` steps. -/
theorem delayLoop_returns_bounded (hw : Nat → Bool) (fuel : Nat)
    (hb : ∀ t, ∃ k, k < fuel ∧ hw (t + k) = true) (n : Nat) (s : State)
    (hTR : s.TR2 = true) : ∃ s', delayLoop hw fuel n s = some s' := by
  induction n generalizing s with
  | zero => exact ⟨s, rfl⟩
  | succ n ih =>
    obtain ⟨k, hk, hfire⟩ := hb (clear_TF2 s).clk
    obtain ⟨s1, h1⟩ := waitTF2_fires hw k fuel (clear_TF2 s) (by simpa [clear_TF2] using hTR)
      hfire hk
    obtain ⟨j, -, e⟩ := waitTF2_some hw fuel _ _ h1
    obtain ⟨s2, h2⟩ := ih s1 (by rw [e]; simpa [waitResult, clear_TF2] using hTR)
    exact ⟨s2, by simp [delayLoop, h1, h2]⟩

/-- The outer loop returns, given enough fuel, when the timer overflows again and again. -/
theorem delayLoop_returns (hw : Nat → Bool) (hhw : ∀ t, ∃ k, hw (t + k) = true) (n : Nat)
    (s : State) (hTR : s.TR2 = true) : ∃ fuel s', delayLoop hw fuel n s = some s' := by
  induction n generalizing s with
  | zero => exact ⟨0, s, rfl⟩
  | succ n ih =>
    obtain ⟨k, hfire⟩ := hhw (clear_TF2 s).clk
    obtain ⟨s1, h1⟩ := waitTF2_fires hw k (k + 1) (clear_TF2 s)
      (by simpa [clear_TF2] using hTR) hfire (Nat.lt_succ_self k)
    obtain ⟨j, -, e⟩ := waitTF2_some hw _ _ _ h1
    obtain ⟨f2, s2, h2⟩ := ih s1 (by rw [e]; simpa [waitResult, clear_TF2] using hTR)
    refine ⟨max (k + 1) f2, s2, ?_⟩
    have h1' := waitTF2_mono hw (k + 1) (max (k + 1) f2) _ _ (Nat.le_max_left _ _) h1
    have h2' := delayLoop_mono hw f2 (max (k + 1) f2) n _ _ (Nat.le_max_right _ _) h2
    simp [delayLoop, h1', h2']

theorem vDelay_ms_returns_bounded (hw : Nat → Bool) (fuel : Nat)
    (hb : ∀ t, ∃ k, k < fuel ∧ hw (t + k) = true) (n : Nat) (s : State) :
    ∃ s', vDelay_ms hw fuel n s = some s' := by
  obtain ⟨s1, h1⟩ := delayLoop_returns_bounded hw fuel hb n (set_TR2 true s) rfl
  exact ⟨set_TR2 false s1, by simp [vDelay_ms, h1]⟩

theorem vDelay_ms_returns (hw : Nat → Bool) (hhw : ∀ t, ∃ k, hw (t + k) = true) (n : Nat)
    (s : State) : ∃ fuel s', vDelay_ms hw fuel n s = some s' := by
  obtain ⟨fuel, s1, h1⟩ := delayLoop_returns hw hhw n (set_TR2 true s) rfl
  exact ⟨fuel, set_TR2 false s1, by simp [vDelay_ms, h1]⟩

theorem hwAlways_fires (t : Nat) : ∃ k, k < 1 ∧ hwAlways (t + k) = true :=
  ⟨0, Nat.one_pos, rfl⟩

theorem hwEvery3_fires (t : Nat) : ∃ k, hwEvery3 (t + k) = true := by
  refine ⟨2 - t % 3, ?_⟩
  simp only [hwEvery3, decide_eq_true_eq]
  omega

theorem wrap16_small (c : Int) (h0 : 0 ≤ c) (h99 : c ≤ 99) : wrap16 (c + 1) = c + 1 := by
  unfold wrap16
  omega

theorem nextCount_eq (c : Int) (h0 : 0 ≤ c) (h99 : c ≤ 99) : nextCount c = (c + 1) % 100 := by
  unfold nextCount
  rw [wrap16_small c h0 h99]
  simp only
  split <;> omega

theorem bus1_display_other (number : Int) (s : State) :
    bus1 (vDisplayNumber number DEC2 s) = bus1 s := by
  obtain ⟨a, b, c, d, h⟩ := display_dec2_eq_write number s
  rw [h, bus1_writeDec2]

theorem bus2_display_other (number : Int) (s : State) :
    bus2 (vDisplayNumber number DEC1 s) = bus2 s := by
  obtain ⟨a, b, c, d, h⟩ := display_dec1_eq_write number s
  rw [h, bus2_writeDec1]

/-- The two display calls of one iteration put the ones on bus 1 and the tens on bus 2. -/
theorem bus_displayCount (c : Int) (h0 : 0 ≤ c) (h99 : c ≤ 99) (s : State) :
    bus1 (displayCount c s) = tablePattern (c % 10) ∧
      bus2 (displayCount c s) = tablePattern (c / 10) := by
  unfold displayCount
  rw [Int.tmod_eq_emod h0 (by decide), Int.tdiv_eq_ediv h0 (by decide)]
  constructor
  · rw [bus1_display_other, bus1_display_digit _ (by omega) (by omega)]
  · rw [bus2_display_digit _ (by omega) (by omega)]

theorem bus1_delayResult (s : State) (ks : List Nat) : bus1 (delayResult s ks) = bus1 s := rfl

theorem bus2_delayResult (s : State) (ks : List Nat) : bus2 (delayResult s ks) = bus2 s := rfl

/-- The state an iteration returns, when it returns. -/
theorem loopBody_some (hw : Nat → Bool) (fuel : Nat) (m m' : MainState)
    (h : loopBody hw fuel m = some m') :
    ∃ ks, ks.length = DELAY ∧
      m' = { count := nextCount m.count, regs := delayResult (displayCount m.count m.regs) ks } := by
  simp only [loopBody, Option.map_eq_some'] at h
  obtain ⟨r, hr, e⟩ := h
  obtain ⟨ks, hl, er⟩ := vDelay_ms_some hw fuel _ _ _ hr
  exact ⟨ks, hl, by rw [← e, er]⟩

theorem loopBody_mono (hw : Nat → Bool) (f f' : Nat) (m m' : MainState) (hf : f ≤ f')
    (h : loopBody hw f m = some m') : loopBody hw f' m = some m' := by
  simp only [loopBody, Option.map_eq_some'] at h ⊢
  obtain ⟨r, hr, e⟩ := h
  exact ⟨r, vDelay_ms_mono hw f f' _ _ _ hf hr, e⟩

theorem runLoop_mono (hw : Nat → Bool) (f f' k : Nat) (m m' : MainState) (hf : f ≤ f')
    (h : runLoop hw f k m = some m') : runLoop hw f' k m = some m' := by
  induction k generalizing m' with
  | zero => simpa [runLoop] using h
  | succ k ih =>
    simp only [runLoop, Option.bind_eq_some] at h ⊢
    obtain ⟨m1, h1, h2⟩ := h
    exact ⟨m1, ih _ h1, loopBody_mono hw f f' _ _ hf h2⟩

/-- With a timer that overflows within every window of `fuel` steps the loop runs on. -/
theorem runLoop_returns_bounded (hw : Nat → Bool) (fuel : Nat)
    (hb : ∀ t, ∃ k, k < fuel ∧ hw (t + k) = true) (k : Nat) (m : MainState) :
    ∃ m', runLoop hw fuel k m = some m' := by
  induction k with
  | zero => exact ⟨m, rfl⟩
  | succ k ih =>
    obtain ⟨m1, h1⟩ := ih
    obtain ⟨r, hr⟩ := vDelay_ms_returns_bounded hw fuel hb DELAY (displayCount m1.count m1.regs)
    exact ⟨{ count := nextCount m1.count, regs := r }, by simp [runLoop, h1, loopBody, hr]⟩

/-- With a timer that overflows again and again, enough fuel runs any number of
iterations. -/
theorem runLoop_returns (hw : Nat → Bool) (hhw : ∀ t, ∃ k, hw (t + k) = true) (k : Nat)
    (m : MainState) : ∃ fuel m', runLoop hw fuel k m = some m' := by
  induction k with
  | zero => exact ⟨0, m, rfl⟩
  | succ k ih =>
    obtain ⟨f1, m1, h1⟩ := ih
    obtain ⟨f2, r, hr⟩ := vDelay_ms_returns hw hhw DELAY (displayCount m1.count m1.regs)
    refine ⟨max f1 f2, { count := nextCount m1.count, regs := r }, ?_⟩
    have h1' := runLoop_mono hw f1 (max f1 f2) k _ _ (Nat.le_max_left _ _) h1
    have hr' := vDelay_ms_mono hw f2 (max f1 f2) _ _ _ (Nat.le_max_right _ _) hr
    simp [runLoop, h1', loopBody, hr']

/-- The counter after `k` iterations from 0, when they return. -/
theorem runLoop_count (hw : Nat → Bool) (fuel k : Nat) (m0 m : MainState)
    (h0 : m0.count = 0) (h : runLoop hw fuel k m0 = some m) :
    m.count = ((k % 100 : Nat) : Int) := by
  induction k generalizing m with
  | zero =>
    simp only [runLoop, Option.some.injEq] at h
    subst h
    simpa using h0
  | succ k ih =>
    simp only [runLoop, Option.bind_eq_some] at h
    obtain ⟨m1, h1, h2⟩ := h
    have c1 := ih m1 h1
    obtain ⟨ks, -, e⟩ := loopBody_some hw fuel _ _ h2
    rw [e]
    simp only
    rw [nextCount_eq _ (by omega) (by omega), c1]
    omega

/-- The lines and the run bit after `j + 1` iterations from 0, when they return. -/
theorem runLoop_display (hw : Nat → Bool) (fuel j : Nat) (m0 m : MainState)
    (h0 : m0.count = 0) (h : runLoop hw fuel (j + 1) m0 = some m) :
    bus1 m.regs = tablePattern ((j % 100 % 10 : Nat) : Int) ∧
      bus2 m.regs = tablePattern ((j % 100 / 10 : Nat) : Int) ∧ m.regs.TR2 = false := by
  simp only [runLoop, Option.bind_eq_some] at h
  obtain ⟨m1, h1, h2⟩ := h
  have c1 := runLoop_count hw fuel j m0 m1 h0 h1
  obtain ⟨ks, -, e⟩ := loopBody_some hw fuel _ _ h2
  have hb := bus_displayCount m1.count (by omega) (by omega) m1.regs
  rw [c1] at hb
  rw [e]
  simp only [bus1_delayResult, bus2_delayResult, c1]
  refine ⟨?_, ?_, rfl⟩
  · rw [hb.1]; congr 1
  · rw [hb.2]; congr 1

/-- After `mainInit` all eight lines are low. -/
theorem bus_mainInit (s : State) :
    bus1 (mainInit s).regs = (false, false, false, false) ∧
      bus2 (mainInit s).regs = (false, false, false, false) := by
  simp [mainInit, vTimer2_Init, vPort_Init, bus1, bus2, dec1A, dec1B, dec1C, dec1D, dec2A,
    dec2B, dec2C, dec2D]

/-- Enough fuel: any number of iterations returns one state, whatever the fuel beyond. -/
theorem runLoop_total (hw : Nat → Bool) (hhw : ∀ t, ∃ k, hw (t + k) = true) (k : Nat)
    (m0 : MainState) : ∃ fuel0 m, ∀ fuel, fuel0 ≤ fuel → runLoop hw fuel k m0 = some m := by
  obtain ⟨f, m, h⟩ := runLoop_returns hw hhw k m0
  exact ⟨f, m, fun fuel hf => runLoop_mono hw f fuel k _ _ hf h⟩

/-- C7, as stated, fails: with a timer that overflows in every step, one complete iteration
from the initialised state returns with bus 1 showing 0000, the pattern of 0, not 1000,
the pattern of 1 mod 100. -/
theorem C7_counterexample :
    ∃ m, runLoop hwAlways 1 1 (mainInit zeroState) = some m ∧
      bus1 m.regs = (false, false, false, false) ∧
      bus1 m.regs ≠ tablePattern ((1 % 100 % 10 : Nat) : Int) := by
  obtain ⟨m, h⟩ := runLoop_returns_bounded hwAlways 1 hwAlways_fires 1 (mainInit zeroState)
  have hd := (runLoop_display hwAlways 1 0 _ m rfl h).1
  refine ⟨m, h, ?_, ?_⟩
  · rw [hd]; decide
  · rw [hd]; decide

/-- C7, amended: from the initialised state (counter 0, both buses 0000), after j + 1
complete iterations the buses show j mod 100 (bus 1 the ones, bus 2 the tens), the counter
holds (j + 1) mod 100, and the two display calls of the next iteration put that value on
the buses. -/
theorem C7_display_lags_counter (hw : Nat → Bool) (hhw : ∀ t, ∃ k, hw (t + k) = true)
    (s : State) (j : Nat) :
    bus1 (mainInit s).regs = tablePattern 0 ∧ bus2 (mainInit s).regs = tablePattern 0 ∧
    ∃ fuel0 m, (∀ fuel, fuel0 ≤ fuel → runLoop hw fuel (j + 1) (mainInit s) = some m) ∧
      bus1 m.regs = tablePattern ((j % 100 % 10 : Nat) : Int) ∧
      bus2 m.regs = tablePattern ((j % 100 / 10 : Nat) : Int) ∧
      m.count = (((j + 1) % 100 : Nat) : Int) ∧
      bus1 (displayCount m.count m.regs) = tablePattern (((j + 1) % 100 % 10 : Nat) : Int) ∧
      bus2 (displayCount m.count m.regs) = tablePattern (((j + 1) % 100 / 10 : Nat) : Int) := by
  refine ⟨(bus_mainInit s).1, (bus_mainInit s).2, ?_⟩
  obtain ⟨f, m, h⟩ := runLoop_total hw hhw (j + 1) (mainInit s)
  have hm := h f (Nat.le_refl f)
  have hd := runLoop_display hw f j _ m rfl hm
  have hc := runLoop_count hw f (j + 1) _ m rfl hm
  have hb := bus_displayCount m.count (by omega) (by omega) m.regs
  rw [hc] at hb
  refine ⟨f, m, h, hd.1, hd.2.1, hc, ?_, ?_⟩
  · rw [hc, hb.1]; congr 1
  · rw [hc, hb.2]; congr 1

/-- Witness of the amended C7: ten iterations with a timer overflowing every third step. -/
theorem C7_display_lags_counter_witness :
    bus1 (mainInit zeroState).regs = tablePattern 0 ∧
    bus2 (mainInit zeroState).regs = tablePattern 0 ∧
    ∃ fuel0 m, (∀ fuel, fuel0 ≤ fuel → runLoop hwEvery3 fuel (9 + 1) (mainInit zeroState) = some m) ∧
      bus1 m.regs = tablePattern ((9 % 100 % 10 : Nat) : Int) ∧
      bus2 m.regs = tablePattern ((9 % 100 / 10 : Nat) : Int) ∧
      m.count = (((9 + 1) % 100 : Nat) : Int) ∧
      bus1 (displayCount m.count m.regs) = tablePattern (((9 + 1) % 100 % 10 : Nat) : Int) ∧
      bus2 (displayCount m.count m.regs) = tablePattern (((9 + 1) % 100 / 10 : Nat) : Int) :=
  C7_display_lags_counter hwEvery3 hwEvery3_fires zeroState 9

/-- C8, as stated, fails: with a timer that overflows in every step, 100 complete
iterations from the initialised state return with the counter back at 0 but with bus 1
showing 1001, the pattern of 9, where the state after 0 iterations shows 0000. -/
theorem C8_counterexample :
    ∃ m, runLoop hwAlways 1 100 (mainInit zeroState) = some m ∧ m.count = 0 ∧
      bus1 m.regs = (true, false, false, true) ∧
      bus1 (mainInit zeroState).regs = (false, false, false, false) ∧
      observable m ≠ observable (mainInit zeroState) := by
  obtain ⟨m, h⟩ := runLoop_returns_bounded hwAlways 1 hwAlways_fires 100 (mainInit zeroState)
  have hd := (runLoop_display hwAlways 1 99 _ m rfl h).1
  have hc := runLoop_count hwAlways 1 100 _ m rfl h
  have h9 : bus1 m.regs = (true, false, false, true) := by rw [hd]; decide
  have h0 := (bus_mainInit zeroState).1
  refine ⟨m, h, by simpa using hc, h9, h0, ?_⟩
  intro e
  simp only [observable, Prod.mk.injEq] at e
  rw [h9, h0] at e
  exact absurd e.2.1 (by decide)

/-- C8, amended: after exactly 100 complete iterations from the initialised state the
counter has wrapped to 0 and the timer is stopped, while both buses show 1001 (the value
99); from the first iteration on the state repeats with period 100: for k ≥ 1 the counter,
the eight lines and the run bit after k + 100 iterations equal those after k. -/
theorem C8_period_100 (hw : Nat → Bool) (hhw : ∀ t, ∃ k, hw (t + k) = true) (s : State)
    (k : Nat) (hk : 1 ≤ k) :
    ∃ fuel0 m100 mk mk100,
      (∀ fuel, fuel0 ≤ fuel →
        runLoop hw fuel 100 (mainInit s) = some m100 ∧
        runLoop hw fuel k (mainInit s) = some mk ∧
        runLoop hw fuel (k + 100) (mainInit s) = some mk100) ∧
      m100.count = 0 ∧ m100.regs.TR2 = false ∧
      bus1 m100.regs = (true, false, false, true) ∧
      bus2 m100.regs = (true, false, false, true) ∧
      observable mk100 = observable mk := by
  obtain ⟨j, rfl⟩ : ∃ j, k = j + 1 := ⟨k - 1, by omega⟩
  obtain ⟨f1, m100, h1⟩ := runLoop_total hw hhw 100 (mainInit s)
  obtain ⟨f2, mk, h2⟩ := runLoop_total hw hhw (j + 1) (mainInit s)
  obtain ⟨f3, mk100, h3⟩ := runLoop_total hw hhw (j + 1 + 100) (mainInit s)
  have a1 := h1 f1 (Nat.le_refl _)
  have a2 := h2 f2 (Nat.le_refl _)
  have a3 := h3 f3 (Nat.le_refl _)
  have d1 := runLoop_display hw f1 99 _ m100 rfl a1
  have c1 := runLoop_count hw f1 100 _ m100 rfl a1
  have d2 := runLoop_display hw f2 j _ mk rfl a2
  have c2 := runLoop_count hw f2 (j + 1) _ mk rfl a2
  have e3 : j + 1 + 100 = (j + 100) + 1 := by omega
  rw [e3] at a3
  have d3 := runLoop_display hw f3 (j + 100) _ mk100 rfl a3
  have c3 := runLoop_count hw f3 (j + 100 + 1) _ mk100 rfl a3
  refine ⟨max f1 (max f2 f3), m100, mk, mk100, ?_, by simpa using c1, d1.2.2, ?_, ?_, ?_⟩
  · intro fuel hf
    exact ⟨h1 fuel (by omega), h2 fuel (by omega), h3 fuel (by omega)⟩
  · rw [d1.1]; decide
  · rw [d1.2.1]; decide
  · have p : (j + 100) % 100 = j % 100 := by omega
    have q : (j + 100 + 1) % 100 = (j + 1) % 100 := by omega
    simp only [observable, d2.1, d2.2.1, d2.2.2, d3.1, d3.2.1, d3.2.2, c2, c3, p, q]

/-- Witness of the amended C8: the states after 1 and after 101 iterations. -/
theorem C8_period_100_witness :
    ∃ fuel0 m100 mk mk100,
      (∀ fuel, fuel0 ≤ fuel →
        runLoop hwEvery3 fuel 100 (mainInit zeroState) = some m100 ∧
        runLoop hwEvery3 fuel 1 (mainInit zeroState) = some mk ∧
        runLoop hwEvery3 fuel (1 + 100) (mainInit zeroState) = some mk100) ∧
      m100.count = 0 ∧ m100.regs.TR2 = false ∧
      bus1 m100.regs = (true, false, false, true) ∧
      bus2 m100.regs = (true, false, false, true) ∧
      observable mk100 = observable mk :=
  C8_period_100 hwEvery3 hwEvery3_fires zeroState 1 (Nat.le_refl 1)

/-- C9: the counter of `main` is 0 on entry to the loop; for a counter c in [0, 99] the
increment does not leave the 16-bit range and one iteration maps c to (c + 1) mod 100,
again in [0, 99] (99 goes to 0, 100 is never seen at the loop head); after k iterations
from 0 the counter is k mod 100. -/
theorem C9_counter_invariant (hw : Nat → Bool) (hhw : ∀ t, ∃ k, hw (t + k) = true)
    (s : State) (k : Nat) :
    (mainInit s).count = 0 ∧
    (∀ c : Int, 0 ≤ c → c ≤ 99 →
      wrap16 (c + 1) = c + 1 ∧ c + 1 ≤ 32767 ∧ nextCount c = (c + 1) % 100 ∧
      0 ≤ nextCount c ∧ nextCount c ≤ 99) ∧
    nextCount 99 = 0 ∧
    (∀ fuel m m', loopBody hw fuel m = some m' → m'.count = nextCount m.count) ∧
    ∃ fuel0 m, (∀ fuel, fuel0 ≤ fuel → runLoop hw fuel k (mainInit s) = some m) ∧
      m.count = ((k % 100 : Nat) : Int) ∧ 0 ≤ m.count ∧ m.count ≤ 99 := by
  refine ⟨rfl, ?_, by decide, ?_, ?_⟩
  · intro c h0 h99
    have e := nextCount_eq c h0 h99
    refine ⟨wrap16_small c h0 h99, by omega, e, ?_, ?_⟩ <;> omega
  · intro fuel m m' h
    obtain ⟨ks, -, e⟩ := loopBody_some hw fuel _ _ h
    rw [e]
  · obtain ⟨f, m, h⟩ := runLoop_total hw hhw k (mainInit s)
    have hc := runLoop_count hw f k _ m rfl (h f (Nat.le_refl f))
    exact ⟨f, m, h, hc, by omega, by omega⟩

/-- Witness of C9: 250 iterations with a timer overflowing every third step. -/
theorem C9_counter_invariant_witness :
    (mainInit onesState).count = 0 ∧
    (∀ c : Int, 0 ≤ c → c ≤ 99 →
      wrap16 (c + 1) = c + 1 ∧ c + 1 ≤ 32767 ∧ nextCount c = (c + 1) % 100 ∧
      0 ≤ nextCount c ∧ nextCount c ≤ 99) ∧
    nextCount 99 = 0 ∧
    (∀ fuel m m', loopBody hwEvery3 fuel m = some m' → m'.count = nextCount m.count) ∧
    ∃ fuel0 m, (∀ fuel, fuel0 ≤ fuel → runLoop hwEvery3 fuel 250 (mainInit onesState) = some m) ∧
      m.count = ((250 % 100 : Nat) : Int) ∧ 0 ≤ m.count ∧ m.count ≤ 99 :=
  C9_counter_invariant hwEvery3 hwEvery3_fires onesState 250

/-- `x | 0x83` in 8 bits, bit by bit. -/
theorem testBit_or_0x83 (x j : Nat) :
    ((x ||| 0x83) % 256).testBit j = (decide (j < 8) && (x.testBit j || Nat.testBit 0x83 j)) := by
  rw [testBit_mod_256, Nat.testBit_or]

/-- Applying `|= 0x83` twice is applying it once. -/
theorem or_0x83_idem (x : Nat) : (((x ||| 0x83) % 256) ||| 0x83) % 256 = (x ||| 0x83) % 256 := by
  apply Nat.eq_of_testBit_eq
  intro j
  rw [testBit_or_0x83, testBit_or_0x83]
  cases decide (j < 8) <;> cases x.testBit j <;> cases Nat.testBit 0x83 j <;> rfl

theorem vOSC_Init_idem (s : State) : vOSC_Init (vOSC_Init s) = vOSC_Init s := by
  simp only [vOSC_Init, Nat.and_zero, Nat.zero_mod, or_0x83_idem]

theorem vPort_Init_idem (s : State) : vPort_Init (vPort_Init s) = vPort_Init s := rfl

/-- C11: for every prior state and every fuel, `vDelay_ms hw fuel 0 s` returns; the only
accesses are `TR2 = 1` and `TR2 = 0`, no clear and no poll of `TF2` occurs, and `TF2` and
the hardware time on return equal those on entry. -/
theorem C11_delay_zero (hw : Nat → Bool) (fuel : Nat) (s : State) :
    ∃ s', vDelay_ms hw fuel 0 s = some s' ∧
      s'.trace = s.trace ++ [Event.writeTR2 true, Event.writeTR2 false] ∧
      s'.TF2 = s.TF2 ∧ s'.clk = s.clk ∧ s'.TR2 = false ∧
      (∀ e ∈ [Event.writeTR2 true, Event.writeTR2 false],
        e ≠ Event.clearTF2 ∧ ∀ b, e ≠ Event.pollTF2 b) := by
  refine ⟨set_TR2 false (set_TR2 true s), rfl, ?_, rfl, rfl, rfl, ?_⟩
  · simp [set_TR2]
  · intro e he
    simp only [List.mem_cons, List.mem_singleton, List.not_mem_nil, or_false] at he
    rcases he with rfl | rfl <;> exact ⟨by simp, by simp⟩

/-- C12, as stated, fails: the reload value gives 1333 counts per overflow, and
1333 * 12 * 1000 is 15,996,000, not 16,000,000. -/
theorem C12_counterexample :
    (vTimer2_Init zeroState).RCAP2 = 64203 ∧
      (65536 - (vTimer2_Init zeroState).RCAP2) * 12 * 1000 = 15996000 ∧
      (65536 - (vTimer2_Init zeroState).RCAP2) * 12 * 1000 ≠ 16000000 := by
  decide

/-- C12, amended: the reload value stored in `RCAP2` is `RELOAD_VAL` reduced mod 2^16,
64203, so the timer counts 1333 = (16,000,000 / 12) / 1000 steps per overflow; that is the
largest count whose period at SYSCLK/12 does not exceed one millisecond
(1333 * 12 * 1000 ≤ 16,000,000 < 1334 * 12 * 1000), and no count gives exactly 1000 Hz. -/
theorem C12_reload_value (s : State) :
    RELOAD_VAL = -1333 ∧
      (vTimer2_Init s).RCAP2 = 64203 ∧
      65536 - (vTimer2_Init s).RCAP2 = 1333 ∧
      (65536 - (vTimer2_Init s).RCAP2) * 12 * 1000 ≤ 16000000 ∧
      16000000 < (65536 - (vTimer2_Init s).RCAP2 + 1) * 12 * 1000 ∧
      ∀ c : Nat, c * 12 * 1000 ≠ 16000000 := by
  have h : (vTimer2_Init s).RCAP2 = 64203 := by
    simp only [vTimer2_Init]
    decide
  refine ⟨by decide, h, ?_, ?_, ?_, ?_⟩
  · rw [h]
  · rw [h]; decide
  · rw [h]; decide
  · intro c
    omega

/-- C13, on the code: `OSCICN|=0x83` only sets bits. For every prior state `OSCXCN` is
0x00 afterwards and bits 7, 1 and 0 of `OSCICN` are set (IFCN = 11), but bits 6 to 2 are
left as they were: from a prior `OSCICN = 0x08` (CLKSL set, IOSCEN clear) the call leaves
`OSCICN = 0x8B`, with CLKSL (bit 3) still 1 and IOSCEN (bit 2) still 0, where the comment
on that statement says `CLKSL=0 (internal oscillator) @16MHz`. From the prior value 0x14
the result is 0x97. -/
theorem C13_osc_init_only_sets_bits (s : State) :
    (vOSC_Init { zeroState with OSCICN := 0x08 }).OSCICN = 0x8B ∧
      (vOSC_Init { zeroState with OSCICN := 0x08 }).OSCICN.testBit 3 = true ∧
      (vOSC_Init { zeroState with OSCICN := 0x08 }).OSCICN.testBit 2 = false ∧
      (vOSC_Init s).OSCXCN = 0x00 ∧
      (vOSC_Init s).OSCICN.testBit 7 = true ∧
      (vOSC_Init s).OSCICN.testBit 1 = true ∧
      (vOSC_Init s).OSCICN.testBit 0 = true ∧
      (vOSC_Init s).OSCICN.testBit 3 = s.OSCICN.testBit 3 ∧
      (vOSC_Init s).OSCICN.testBit 2 = s.OSCICN.testBit 2 ∧
      (vOSC_Init s).OSCICN.testBit 6 = s.OSCICN.testBit 6 ∧
      (vOSC_Init s).OSCICN.testBit 5 = s.OSCICN.testBit 5 ∧
      (vOSC_Init s).OSCICN.testBit 4 = s.OSCICN.testBit 4 ∧
      (vOSC_Init { s with OSCICN := 0x14 }).OSCICN = 0x97 := by
  have e : (vOSC_Init s).OSCICN = (s.OSCICN ||| 0x83) % 256 := rfl
  have b7 : Nat.testBit 0x83 7 = true := by decide
  have b6 : Nat.testBit 0x83 6 = false := by decide
  have b5 : Nat.testBit 0x83 5 = false := by decide
  have b4 : Nat.testBit 0x83 4 = false := by decide
  have b3 : Nat.testBit 0x83 3 = false := by decide
  have b2 : Nat.testBit 0x83 2 = false := by decide
  have b1 : Nat.testBit 0x83 1 = true := by decide
  have b0 : Nat.testBit 0x83 0 = true := by decide
  refine ⟨by decide, by decide, by decide, ?_, ?_, ?_, ?_, ?_, ?_, ?_, ?_, ?_, ?_⟩
  · simp [vOSC_Init]
  · rw [e, testBit_or_0x83, b7]; simp
  · rw [e, testBit_or_0x83, b1]; simp
  · rw [e, testBit_or_0x83, b0]; simp
  · rw [e, testBit_or_0x83, b3]; simp
  · rw [e, testBit_or_0x83, b2]; simp
  · rw [e, testBit_or_0x83, b6]; simp
  · rw [e, testBit_or_0x83, b5]; simp
  · rw [e, testBit_or_0x83, b4]; simp
  · simp only [vOSC_Init]
    decide

/-- C14: for every prior state, after `vPort_Init` the crossbar register is 0x40 (bit 6
set), `PRT0CF` is 0xFF, `P0` is 0x00, and both buses hold 0000. -/
theorem C14_port_init (s : State) :
    (vPort_Init s).XBR2 = 0x40 ∧ (vPort_Init s).XBR2.testBit 6 = true ∧
      (vPort_Init s).PRT0CF = 0xFF ∧ (vPort_Init s).P0 = 0x00 ∧
      bus1 (vPort_Init s) = (false, false, false, false) ∧
      bus2 (vPort_Init s) = (false, false, false, false) := by
  refine ⟨rfl, ?_, rfl, rfl, ?_, ?_⟩
  · show Nat.testBit 0x40 6 = true
    decide
  · simp [vPort_Init, bus1, dec1A, dec1B, dec1C, dec1D]
  · simp [vPort_Init, bus2, dec2A, dec2B, dec2C, dec2D]

/-- C15: `vOSC_Init` and `vPort_Init` are idempotent on the whole state, and n + 1 calls
in a row give the state of one call. -/
theorem C15_init_idempotent (s : State) (n : Nat) :
    vOSC_Init (vOSC_Init s) = vOSC_Init s ∧ vPort_Init (vPort_Init s) = vPort_Init s ∧
      vOSC_Init^[n + 1] s = vOSC_Init s ∧ vPort_Init^[n + 1] s = vPort_Init s := by
  refine ⟨vOSC_Init_idem s, vPort_Init_idem s, ?_, ?_⟩
  · induction n with
    | zero => rfl
    | succ n ih => rw [Function.iterate_succ_apply', ih, vOSC_Init_idem]
  · induction n with
    | zero => rfl
    | succ n ih => rw [Function.iterate_succ_apply', ih, vPort_Init_idem]

/-! ## The port as a number -/

/-- The low four bits of a number, from its bits. -/
theorem mod16_eq_nibbleVal (x : Nat) :
    x % 16 = nibbleVal (x.testBit 0, x.testBit 1, x.testBit 2, x.testBit 3) := by
  simp only [nibbleVal, Nat.toNat_testBit]
  norm_num
  omega

/-- The high four bits of an 8-bit number, from its bits. -/
theorem div16_eq_nibbleVal (x : Nat) (h : x < 256) :
    x / 16 = nibbleVal (x.testBit 4, x.testBit 5, x.testBit 6, x.testBit 7) := by
  simp only [nibbleVal, Nat.toNat_testBit]
  norm_num
  omega

theorem writeBit_lt (p k : Nat) (v : Bool) : writeBit p k v < 256 := by
  unfold writeBit setBit8 clrBit8
  split <;> exact Nat.mod_lt _ (by decide)

theorem P0_writeDec1_lt (a b c d : Bool) (s : State) : (writeDec1 a b c d s).P0 < 256 :=
  writeBit_lt _ _ _

theorem P0_writeDec2_lt (a b c d : Bool) (s : State) : (writeDec2 a b c d s).P0 < 256 :=
  writeBit_lt _ _ _

theorem P0_display_dec2_lt (number : Int) (s : State) :
    (vDisplayNumber number DEC2 s).P0 < 256 := by
  obtain ⟨a, b, c, d, h⟩ := display_dec2_eq_write number s
  rw [h]
  exact P0_writeDec2_lt a b c d s

/-- The table of the specification is binary coded decimal, line A the lowest bit. -/
theorem nibbleVal_tablePattern (d : Int) (h0 : 0 ≤ d) (h9 : d ≤ 9) :
    ((nibbleVal (tablePattern d) : Nat) : Int) = d := by
  interval_cases d <;> rfl

theorem takesDefault_iff (number : Int) :
    takesDefault number = true ↔ (number < 0 ∨ 9 < number) := by
  rcases digit_or_default number with ⟨h0, h9⟩ | h
  · have hn : ¬ (number < 0 ∨ 9 < number) := by omega
    simp only [hn, iff_false]
    interval_cases number <;> simp [takesDefault]
  · have e0 : number ≠ 0 := by omega
    have e1 : number ≠ 1 := by omega
    have e2 : number ≠ 2 := by omega
    have e3 : number ≠ 3 := by omega
    have e4 : number ≠ 4 := by omega
    have e5 : number ≠ 5 := by omega
    have e6 : number ≠ 6 := by omega
    have e7 : number ≠ 7 := by omega
    have e8 : number ≠ 8 := by omega
    have e9 : number ≠ 9 := by omega
    simp [takesDefault, e0, e1, e2, e3, e4, e5, e6, e7, e8, e9, h]

theorem takesEmptyElse_iff (decoder : Nat) :
    takesEmptyElse decoder = true ↔ (decoder ≠ DEC1 ∧ decoder ≠ DEC2) := by
  unfold takesEmptyElse
  by_cases h1 : decoder = DEC1
  · simp [h1]
  · by_cases h2 : decoder = DEC2
    · simp [h2]
    · simp [h1, h2]

/-- C16: the encoding is plain BCD with line A as the least significant bit: for a digit d
the low nibble of `P0` is d after `vDisplayNumber d DEC1` and the high nibble
(`P0 / 16`) is d after `vDisplayNumber d DEC2`; for a counter c in 0..99 the two display
calls of one iteration leave `P0 = 16 * (c / 10) + c mod 10`. -/
theorem C16_packed_bcd (d c : Int) (hd0 : 0 ≤ d) (hd9 : d ≤ 9) (hc0 : 0 ≤ c) (hc99 : c ≤ 99)
    (s : State) :
    (((vDisplayNumber d DEC1 s).P0 % 16 : Nat) : Int) = d ∧
      (((vDisplayNumber d DEC2 s).P0 / 16 : Nat) : Int) = d ∧
      (((displayCount c s).P0 : Nat) : Int) = 16 * (c / 10) + c % 10 := by
  have low : ∀ r : State, r.P0 % 16 = nibbleVal (bus1 r) := fun r => mod16_eq_nibbleVal r.P0
  have high : ∀ r : State, r.P0 < 256 → r.P0 / 16 = nibbleVal (bus2 r) :=
    fun r hr => div16_eq_nibbleVal r.P0 hr
  refine ⟨?_, ?_, ?_⟩
  · rw [low, bus1_display_digit d hd0 hd9, nibbleVal_tablePattern d hd0 hd9]
  · rw [high _ (P0_display_dec2_lt d s), bus2_display_digit d hd0 hd9,
      nibbleVal_tablePattern d hd0 hd9]
  · have hb := bus_displayCount c hc0 hc99 s
    have hlt : (displayCount c s).P0 < 256 := P0_display_dec2_lt _ _
    have e1 := low (displayCount c s)
    have e2 := high (displayCount c s) hlt
    rw [hb.1] at e1
    rw [hb.2] at e2
    have n1 := nibbleVal_tablePattern (c % 10) (by omega) (by omega)
    have n2 := nibbleVal_tablePattern (c / 10) (by omega) (by omega)
    rw [← e1] at n1
    rw [← e2] at n2
    omega

/-- Witness of C16: the digit 7 and the counter value 42, written over a port with all
lines high. -/
theorem C16_packed_bcd_witness :
    (((vDisplayNumber 7 DEC1 onesState).P0 % 16 : Nat) : Int) = 7 ∧
      (((vDisplayNumber 7 DEC2 onesState).P0 / 16 : Nat) : Int) = 7 ∧
      (((displayCount 42 onesState).P0 : Nat) : Int) = 16 * (42 / 10) + 42 % 10 :=
  C16_packed_bcd 7 42 (by decide) (by decide) (by decide) (by decide) onesState

/-- C17: in every state the loop of `main` reaches (the state after any number of complete
iterations from the initialised state), the two display calls of the next iteration are
`vDisplayNumber (count%10) DEC1` and `vDisplayNumber (count/10) DEC2` with both numbers in
0..9, so neither the `default` label nor the empty `else` is reached. -/
theorem C17_fallback_unreachable (hw : Nat → Bool) (fuel k : Nat) (s : State) (m : MainState)
    (h : runLoop hw fuel k (mainInit s) = some m) :
    displayCount m.count m.regs =
        (displayArgs m.count).foldl (fun r a => vDisplayNumber a.1 a.2 r) m.regs ∧
      ∀ a ∈ displayArgs m.count,
        0 ≤ a.1 ∧ a.1 ≤ 9 ∧ (a.2 = DEC1 ∨ a.2 = DEC2) ∧
          takesDefault a.1 = false ∧ takesEmptyElse a.2 = false := by
  have hc := runLoop_count hw fuel k _ m rfl h
  have h0 : 0 ≤ m.count := by omega
  have h99 : m.count ≤ 99 := by omega
  have r1 : 0 ≤ m.count.tmod 10 ∧ m.count.tmod 10 ≤ 9 := by
    rw [Int.tmod_eq_emod h0 (by decide)]; omega
  have r2 : 0 ≤ m.count.tdiv 10 ∧ m.count.tdiv 10 ≤ 9 := by
    rw [Int.tdiv_eq_ediv h0 (by decide)]; omega
  have nd : ∀ x : Int, 0 ≤ x → x ≤ 9 → takesDefault x = false := by
    intro x a b
    have := takesDefault_iff x
    cases hx : takesDefault x
    · rfl
    · rw [hx] at this
      have := this.mp rfl
      omega
  refine ⟨rfl, ?_⟩
  intro a ha
  simp only [displayArgs, List.mem_cons, List.mem_singleton, List.not_mem_nil, or_false] at ha
  rcases ha with rfl | rfl
  · exact ⟨r1.1, r1.2, Or.inl rfl, nd _ r1.1 r1.2, rfl⟩
  · exact ⟨r2.1, r2.2, Or.inr rfl, nd _ r2.1 r2.2, rfl⟩

/-- Witness of C17: the state after 37 iterations with a timer overflowing every step. -/
theorem C17_fallback_unreachable_witness :
    ∃ m, runLoop hwAlways 1 37 (mainInit zeroState) = some m ∧
      displayCount m.count m.regs =
        (displayArgs m.count).foldl (fun r a => vDisplayNumber a.1 a.2 r) m.regs ∧
      ∀ a ∈ displayArgs m.count,
        0 ≤ a.1 ∧ a.1 ≤ 9 ∧ (a.2 = DEC1 ∨ a.2 = DEC2) ∧
          takesDefault a.1 = false ∧ takesEmptyElse a.2 = false := by
  obtain ⟨m, h⟩ := runLoop_returns_bounded hwAlways 1 hwAlways_fires 37 (mainInit zeroState)
  exact ⟨m, h, C17_fallback_unreachable hwAlways 1 37 zeroState m h⟩

/-- C18, on the code: `!0x20` is 0, so `CKCON&=!0x20` clears all eight bits of `CKCON`;
from `CKCON = 0xFF` the result is 0x00 and not 0xDF, the value with only bit 5 cleared. -/
theorem C18_ckcon_all_cleared (s : State) :
    lnot 0x20 = 0 ∧ (vTimer2_Init s).CKCON = 0 ∧
      (vTimer2_Init onesState).CKCON = 0x00 ∧
      onesState.CKCON &&& (0xFF ^^^ 0x20) = 0xDF ∧
      (vTimer2_Init onesState).CKCON ≠ onesState.CKCON &&& (0xFF ^^^ 0x20) := by
  have h : ∀ r : State, (vTimer2_Init r).CKCON = 0 := by
    intro r
    simp [vTimer2_Init, lnot]
  refine ⟨by decide, h s, h onesState, by decide, ?_⟩
  rw [h onesState]
  decide

/-- C19: when the timer overflows again and again, `vDelay_ms hw fuel n s` returns for all
large enough fuel with `P0`, and so all eight lines, as on entry; the registers written by
the initialisation functions are unchanged as well, the delay having written only `TR2`
and `TF2`. -/
theorem C19_delay_keeps_display (hw : Nat → Bool) (hhw : ∀ t, ∃ k, hw (t + k) = true)
    (n : Nat) (s : State) :
    ∃ fuel0 s', (∀ fuel, fuel0 ≤ fuel → vDelay_ms hw fuel n s = some s') ∧
      s'.P0 = s.P0 ∧ bus1 s' = bus1 s ∧ bus2 s' = bus2 s ∧
      s'.WDTCN = s.WDTCN ∧ s'.OSCXCN = s.OSCXCN ∧ s'.OSCICN = s.OSCICN ∧
      s'.XBR2 = s.XBR2 ∧ s'.PRT0CF = s.PRT0CF ∧ s'.CKCON = s.CKCON ∧
      s'.RCAP2 = s.RCAP2 ∧ s'.ET2 = s.ET2 := by
  obtain ⟨f, s', h⟩ := vDelay_ms_returns hw hhw n s
  obtain ⟨ks, -, e⟩ := vDelay_ms_some hw f n s s' h
  refine ⟨f, s', fun fuel hf => vDelay_ms_mono hw f fuel n s s' hf h, ?_⟩
  rw [e]
  exact ⟨rfl, rfl, rfl, rfl, rfl, rfl, rfl, rfl, rfl, rfl, rfl⟩

/-- Witness of C19: the delay of 1000 ms over a port with all lines high. -/
theorem C19_delay_keeps_display_witness :
    ∃ fuel0 s', (∀ fuel, fuel0 ≤ fuel → vDelay_ms hwEvery3 fuel 1000 onesState = some s') ∧
      s'.P0 = onesState.P0 ∧ bus1 s' = bus1 onesState ∧ bus2 s' = bus2 onesState ∧
      s'.WDTCN = onesState.WDTCN ∧ s'.OSCXCN = onesState.OSCXCN ∧
      s'.OSCICN = onesState.OSCICN ∧ s'.XBR2 = onesState.XBR2 ∧
      s'.PRT0CF = onesState.PRT0CF ∧ s'.CKCON = onesState.CKCON ∧
      s'.RCAP2 = onesState.RCAP2 ∧ s'.ET2 = onesState.ET2 :=
  C19_delay_keeps_display hwEvery3 hwEvery3_fires 1000 onesState

/-- C20: for every prior state, after `vTimer2_Init` the interrupt enable bit `ET2` is 0,
`RCAP2` is 64203 (0xFACB, that is 65536 - 1333), `T2` holds the same value, and `TR2` and
`TF2` are as before: the timer is not started. -/
theorem C20_timer2_init (s : State) :
    (vTimer2_Init s).ET2 = false ∧ (vTimer2_Init s).RCAP2 = 64203 ∧
      (64203 : Nat) = 0xFACB ∧ (64203 : Nat) = 65536 - 1333 ∧
      (vTimer2_Init s).T2 = (vTimer2_Init s).RCAP2 ∧
      (vTimer2_Init s).TR2 = s.TR2 ∧ (vTimer2_Init s).TF2 = s.TF2 := by
  refine ⟨rfl, ?_, by decide, by decide, rfl, rfl, rfl⟩
  simp only [vTimer2_Init]
  decide

end SevenSeg
